import Mathlib

/-!
Verification of the AdvisorIQ frontend (src/wfsfintech/app.js) against its
natural-language specification.

The JavaScript file is shallowly embedded: JS numbers that the code checks
with typeof/Number.isFinite are modelled as `Option ℚ` (`none` stands for a
missing or non-numeric value; finite numeric values are rationals), objects
that may be absent are `Option` of a structure, the browser localStorage is
a partial map from keys to strings, and HTTP/DOM effects are made explicit
as state passed through the functions.  Property accesses that throw a
TypeError in JS (reading a field of undefined, calling toFixed on a
non-number) are modelled with `Except String`.
-/

namespace AdvisorIQ

/-! ## SessionStore (app.js lines 7 to 19)

localStorage is a key-value map; getItem returns null for an absent key.
-/

abbrev Storage : Type := String → Option String

def Storage.getItem (st : Storage) (k : String) : Option String := st k

def Storage.setItem (st : Storage) (k v : String) : Storage :=
  fun k2 => if k2 = k then some v else st k2

def Storage.removeItem (st : Storage) (k : String) : Storage :=
  fun k2 => if k2 = k then none else st k2

def TOKEN_KEY : String := "advisoriq_token"

def getToken (st : Storage) : Option String := st.getItem TOKEN_KEY

def setToken (st : Storage) (token : String) : Storage := st.setItem TOKEN_KEY token

def clearToken (st : Storage) : Storage := st.removeItem TOKEN_KEY

/-! ## JavaScript helpers

jsToFixed models Number.prototype.toFixed on a finite rational: round to
the nearest multiple of 10^(-d), ties toward the larger candidate (the
ECMA-262 rule), then print with exactly d digits after the point.
-/

def zeroPad (d : ℕ) (s : String) : String :=
  String.mk (List.replicate (d - s.length) '0') ++ s

def jsToFixed (d : ℕ) (q : ℚ) : String :=
  let n : ℤ := round (q * (10 : ℚ) ^ d)
  let sign := if n < 0 then "-" else ""
  if d = 0 then sign ++ toString n.natAbs
  else sign ++ toString (n.natAbs / 10 ^ d) ++ "." ++ zeroPad d (toString (n.natAbs % 10 ^ d))

/-- jsNumToFixed models (x * scale).toFixed(d) where x may be non-numeric:
undefined times a number is NaN and NaN.toFixed gives the string NaN. -/
def jsNumToFixed (d : ℕ) (x : Option ℚ) (scale : ℚ) : String :=
  match x with
  | some q => jsToFixed d (q * scale)
  | none => "NaN"

/-- escapeHtml (app.js lines 58 to 62) escapes via textContent/innerHTML,
which rewrites the three HTML-significant characters. -/
def escapeHtml (s : String) : String :=
  ((s.replace "&" "&amp;").replace "<" "&lt;").replace ">" "&gt;"

/-- jsTruthyStr models !!x for a possibly absent string: undefined and the
empty string are falsy. -/
def jsTruthyStr (o : Option String) : Bool :=
  match o with
  | some s => s ≠ ""
  | none => false

/-- jsOrStr models the JS expression a || b on possibly absent strings:
the empty string is falsy and falls through to b. -/
def jsOrStr (a b : Option String) : Option String :=
  match a with
  | some s => if s = "" then b else some s
  | none => b

/-! ## Data model (response shapes consumed by app.js) -/

structure Client where
  client_id : String
  name : String
  risk_label : String
  target_annual_vol : Option ℚ
  deriving Repr, DecidableEq

/-- IvMetrics is the iv_adjusted_optimal object; sharpe is none when the
field is absent or not a number (toFixed on it would throw). -/
structure IvMetrics where
  sharpe : Option ℚ
  deriving Repr, DecidableEq

structure Portfolio where
  client : Option Client
  iv_adjusted_optimal : Option IvMetrics
  current_annual_vol : Option ℚ
  misaligned_with_profile : Bool
  has_recent_update : Bool
  last_updated : Option String
  drift_from_optimal : Option (List (String × ℚ))
  deriving Repr, DecidableEq

structure Signal where
  symbol : String
  iv : Option ℚ
  predicted_hv : Option ℚ
  ivr : Option ℚ
  iv_percentile : Option ℚ
  regime : String
  fear_level : String
  recommended_action : String
  deriving Repr, DecidableEq

structure StressScenario where
  name : String
  description : String
  portfolio_loss_pct_current : Option ℚ
  portfolio_loss_pct_iv_adjusted : Option ℚ
  deriving Repr, DecidableEq

/-! ## DerivationEngine: risk status classification (app.js lines 69 to 78) -/

/-- statusClass follows the source exactly: the guard is
typeof currentVol === number, typeof targetVol === number and targetVol > 0;
inside the guard the two-branch if/else-if assigns the good or risk CSS
class, and every other path leaves the class empty (NEUTRAL). -/
def statusClass (currentVol targetVol : Option ℚ) (misaligned : Bool) : String :=
  match currentVol, targetVol with
  | some cv, some tv =>
    if 0 < tv then
      let ratio := cv / tv
      if ratio ≤ 1.1 ∧ misaligned = false then "client-card--good"
      else if 1.3 ≤ ratio ∨ misaligned = true then "client-card--risk"
      else ""
    else ""
  | _, _ => ""

/-- RiskStatus names the three categories of the specification. -/
inductive RiskStatus where
  | GOOD
  | RISK
  | NEUTRAL
  deriving Repr, DecidableEq

/-- specStatus is the three-branch rule as the specification words it
(section 4.3): undefined ratio gives NEUTRAL, then GOOD, RISK, NEUTRAL. -/
def specStatus (currentVol targetVol : Option ℚ) (misaligned : Bool) : RiskStatus :=
  match currentVol, targetVol with
  | some cv, some tv =>
    if tv ≤ 0 then .NEUTRAL
    else if cv / tv ≤ 1.1 ∧ misaligned = false then .GOOD
    else if 1.3 ≤ cv / tv ∨ misaligned = true then .RISK
    else .NEUTRAL
  | _, _ => .NEUTRAL

/-- statusOfClass reads the CSS class back as a category. -/
def statusOfClass (s : String) : RiskStatus :=
  if s = "client-card--good" then .GOOD
  else if s = "client-card--risk" then .RISK
  else .NEUTRAL

/-! ## DerivationEngine: drift ranking (app.js lines 81 to 87)

Object.entries of the drift mapping is a list of symbol-value pairs in
insertion order; the pipeline filters on absolute value strictly above
0.01, stable-sorts descending by absolute value (the JS comparator
Math.abs(b) - Math.abs(a) keeps ties in input order, matching a stable
merge sort with the non-strict key comparison) and keeps the first 3.
-/

def driftAbsGE (a b : String × ℚ) : Bool := |b.2| ≤ |a.2|

def driftFilter (d : List (String × ℚ)) : List (String × ℚ) :=
  d.filter (fun p => 0.01 < |p.2|)

def driftEntries (d : List (String × ℚ)) : List (String × ℚ) :=
  ((driftFilter d).mergeSort driftAbsGE).take 3

/-- fmtDrift renders one entry: symbol, a plus sign for positive values
(negative values carry the minus sign from toFixed), the value as a
percentage with one decimal. -/
def fmtDrift (p : String × ℚ) : String :=
  p.1 ++ " " ++ (if 0 < p.2 then "+" else "") ++ jsToFixed 1 (p.2 * 100) ++ "%"

def driftStr (d : List (String × ℚ)) : String :=
  if driftEntries d = [] then "—"
  else String.intercalate ", " ((driftEntries d).map fmtDrift)

/-! ## Aggregate metrics (app.js lines 224 to 250)

The mean implied volatility is computed as
reduce (sum + (typeof iv === number ? iv : 0)) divided by the count of
numeric iv entries; with rational values the quotient is the JS NaN
exactly when that count is 0 (the numerator is then also 0), and the
Number.isFinite guard on the display is the count = 0 test.  Math.max
over the empty filtered ivr list gives negative infinity, again rejected
by Number.isFinite; over a non-empty list it is the maximum.
-/

def ivOrZero (s : Signal) : ℚ :=
  match s.iv with
  | some q => q
  | none => 0

def ivCount (signals : List Signal) : ℕ :=
  (signals.filter (fun s => s.iv.isSome)).length

/-- avgIvVal is the value shown by the average-IV metric when it is shown:
none when the JS value would be non-finite (no numeric iv entry). -/
def avgIvVal (signals : List Signal) : Option ℚ :=
  let s := signals.foldl (fun sum x => sum + ivOrZero x) 0
  if ivCount signals = 0 then none else some (s / (ivCount signals : ℚ))

def isFearful (s : Signal) : Bool :=
  s.fear_level = "HIGH_FEAR" ∨ s.fear_level = "ELEVATED_FEAR"

def highFearCount (signals : List Signal) : ℕ :=
  (signals.filter isFearful).length

/-- maxIvrVal is the value shown by the max-IVR metric when it is shown:
Math.max over the entries with a finite ivr, none when there are none. -/
def maxIvrVal (signals : List Signal) : Option ℚ :=
  (signals.filterMap Signal.ivr).max?

/-- MetricDisplays records what loadDashboard writes into the three metric
elements: none means the element text is not touched by this refresh. -/
structure MetricDisplays where
  avgIv : Option String
  highFear : Option String
  maxIvr : Option String
  deriving Repr, DecidableEq

/-- metricDisplays follows app.js lines 224 to 250: a non-empty signal list
computes the three values and writes each only when finite (the fear count
is always written); an empty list writes the em-dash placeholder into all
three. -/
def metricDisplays (signals : List Signal) : MetricDisplays :=
  if signals.length ≠ 0 then
    { avgIv := (avgIvVal signals).map (fun q => jsToFixed 1 (q * 100) ++ "%")
      highFear := some (toString (highFearCount signals))
      maxIvr := (maxIvrVal signals).map (fun q => jsToFixed 2 q) }
  else
    { avgIv := some "—", highFear := some "—", maxIvr := some "—" }

/-- specMeanIv is the arithmetic mean over exactly the entries with a
numeric implied volatility, as the specification words it. -/
def specMeanIv (signals : List Signal) : ℚ :=
  ((signals.filterMap Signal.iv).sum) / ((signals.filterMap Signal.iv).length : ℚ)

/-! ## renderClientCard (app.js lines 64 to 113)

The card template is modelled as a record of its dynamic fragments.  Three
property accesses throw a TypeError on malformed input, in source order:
reading target_annual_vol off an absent client (line 68), Object.entries
of an absent drift mapping (line 81), and sharpe of an absent
iv_adjusted_optimal, or toFixed on a non-numeric sharpe (line 103).
-/

structure CardView where
  statusCls : String
  misaligned : Bool
  clientId : String
  name : String
  hasUpdate : Bool
  riskLabel : String
  targetVolStr : String
  currentVolStr : String
  sharpeStr : String
  driftText : String
  deriving Repr, DecidableEq

def renderClientCard (p : Portfolio) : Except String CardView :=
  match p.client with
  | none => .error "TypeError: cannot read target_annual_vol of undefined"
  | some c =>
    let status := statusClass p.current_annual_vol c.target_annual_vol p.misaligned_with_profile
    let hasUpdate := p.has_recent_update || jsTruthyStr p.last_updated
    match p.drift_from_optimal with
    | none => .error "TypeError: Object.entries of undefined"
    | some drift =>
      match p.iv_adjusted_optimal with
      | none => .error "TypeError: cannot read sharpe of undefined"
      | some iv =>
        match iv.sharpe with
        | none => .error "TypeError: toFixed is not a function"
        | some sharpe =>
          .ok { statusCls := status
                misaligned := p.misaligned_with_profile
                clientId := c.client_id
                name := escapeHtml c.name
                hasUpdate := hasUpdate
                riskLabel := c.risk_label
                targetVolStr := jsNumToFixed 1 c.target_annual_vol 100
                currentVolStr := jsNumToFixed 1 p.current_annual_vol 100
                sharpeStr := jsToFixed 2 sharpe
                driftText := driftStr drift }

/-! ## renderSignalsTable rows (app.js lines 115 to 132)

Each row interpolates the signal fields; the only throwing access is
s.ivr.toFixed(2) when ivr is absent or not a number. -/

structure SignalRowView where
  symbol : String
  ivStr : String
  hvStr : String
  ivrStr : String
  pctStr : String
  regime : String
  fearCls : String
  fearLevel : String
  action : String
  deriving Repr, DecidableEq

def renderSignalRow (s : Signal) : Except String SignalRowView :=
  match s.ivr with
  | none => .error "TypeError: toFixed is not a function"
  | some ivr =>
    .ok { symbol := escapeHtml s.symbol
          ivStr := jsNumToFixed 1 s.iv 100
          hvStr := jsNumToFixed 1 s.predicted_hv 100
          ivrStr := jsToFixed 2 ivr
          pctStr := jsNumToFixed 0 s.iv_percentile 100
          regime := escapeHtml s.regime
          fearCls := if s.fear_level = "HIGH_FEAR" then "fear-high"
                     else if s.fear_level = "ELEVATED_FEAR" then "fear-elevated" else ""
          fearLevel := escapeHtml s.fear_level
          action := escapeHtml s.recommended_action }

/-! ## renderStressCard (app.js lines 134 to 153) -/

structure StressCardView where
  name : String
  description : String
  lossCurStr : String
  lossIvStr : String
  deriving Repr, DecidableEq

def renderStressCard (sc : StressScenario) : StressCardView :=
  { name := escapeHtml (sc.name.replace "_" " ")
    description := escapeHtml sc.description
    lossCurStr := jsNumToFixed 1 sc.portfolio_loss_pct_current 100
    lossIvStr := jsNumToFixed 1 sc.portfolio_loss_pct_iv_adjusted 100 }

/-! ## APIClient: fetchAPI (app.js lines 21 to 34)

The visible UI screen and the storage form the client state.  A network
interaction is an Except: an error is a rejected fetch promise carrying
the transport error message; an ok value is a settled response with a
status code and a decoded body.  res.ok is 200 to 299.  Errors thrown by
fetchAPI are JS Error values distinguished by their message string, as
the callers do. -/

inductive Screen where
  | login
  | app
  deriving Repr, DecidableEq

structure AppState where
  storage : Storage
  screen : Screen

/-- Request records one outbound call: its path and the Authorization
header attached from the token present when the call was issued. -/
structure Request where
  path : String
  authHeader : Option String
  deriving Repr, DecidableEq

def buildRequest (st : Storage) (path : String) : Request :=
  { path := path, authHeader := (getToken st).map (fun t => "Bearer " ++ t) }

def sessionExpiredMsg : String := "Session expired"

def apiErrorMsg (status : ℕ) : String := "API error: " ++ toString status

/-- fetchAPI normalizes one settled call: 401 clears the token, shows the
login screen and throws the session-expired error; any other non-2xx
status throws the API error with the status; a rejected fetch propagates
its own transport error unchanged; success returns the body. -/
def fetchAPI {α : Type} (s : AppState) (resp : Except String (ℕ × α)) :
    AppState × Except String α :=
  match resp with
  | .error m => (s, .error m)
  | .ok (status, body) =>
    if status = 401 then
      ({ storage := clearToken s.storage, screen := .login }, .error sessionExpiredMsg)
    else if ¬ (200 ≤ status ∧ status ≤ 299) then
      (s, .error (apiErrorMsg status))
    else
      (s, .ok body)

/-! ## loadDashboard (app.js lines 195 to 268) -/

structure UniverseRes where
  regime : Option String
  deriving Repr, DecidableEq

structure SignalsRes where
  regime : Option String
  signals : Option (List Signal)
  deriving Repr, DecidableEq

structure PortfoliosRes where
  portfolios : Option (List Portfolio)
  deriving Repr, DecidableEq

structure StressRes where
  scenarios : Option (List StressScenario)
  deriving Repr, DecidableEq

/-- PanelContent abstracts the innerHTML states the dashboard panels take. -/
inductive PanelContent where
  | loading
  | empty
  | cards (cs : List CardView)
  | signalRows (rs : List SignalRowView)
  | stressCards (cs : List StressCardView)
  | unreachableError
  deriving Repr, DecidableEq

/-- Panels records the text/content of every DOM region loadDashboard
writes. -/
structure Panels where
  regime : String
  clientGrid : PanelContent
  signalsBody : PanelContent
  stressGrid : PanelContent
  metricRegime : String
  metricAvgIv : String
  metricHighFear : String
  metricMaxIvr : String
  deriving Repr, DecidableEq

def dashboardPaths : List String :=
  ["/api/universe", "/api/signals", "/api/portfolios", "/api/stress-tests"]

/-- loadingPanels is the state of the panels right after lines 205 to 208:
loading placeholders in the regime text, client grid and stress grid, the
signals body emptied; the metric texts are left at their prior values. -/
def loadingPanels (prior : Panels) : Panels :=
  { prior with regime := "Loading…", clientGrid := .loading,
               signalsBody := .empty, stressGrid := .loading }

/-- errorPanels is what the non-session-expired arm of the catch block
writes (lines 262 to 265): the regime placeholder, the backend-unreachable
message in the client grid, and emptied signal and stress panels. -/
def errorPanels (p : Panels) : Panels :=
  { p with regime := "—", clientGrid := .unreachableError,
           signalsBody := .empty, stressGrid := .empty }

/-- catchPanels is the catch block of loadDashboard (lines 260 to 267): a
session-expired error leaves the panels as they are (showLogin already
ran); any other error writes the backend-unreachable message into the
client grid, resets the regime text and empties the other two grids. -/
def catchPanels (e : String) (p : Panels) : Panels :=
  if e = sessionExpiredMsg then p else errorPanels p

/-- mapExcept is Array.prototype.map under exceptions: the first element
whose rendering throws aborts the whole map. -/
def mapExcept {α β : Type} (f : α → Except String β) : List α → Except String (List β)
  | [] => .ok []
  | a :: l =>
    match f a with
    | .error e => .error e
    | .ok b =>
      match mapExcept f l with
      | .error e => .error e
      | .ok bs => .ok (b :: bs)

/-- firstErr picks the error the Promise.all rejection delivers.  All four
requests start together and the rejection is the one that settles first;
the model resolves the tie in argument order, which is exact whenever at
most one of the calls fails. -/
def firstErr {α β γ δ : Type} (a : Except String α) (b : Except String β)
    (c : Except String γ) (d : Except String δ) : Option String :=
  match a, b, c, d with
  | .error e, _, _, _ => some e
  | _, .error e, _, _ => some e
  | _, _, .error e, _ => some e
  | _, _, _, .error e => some e
  | _, _, _, _ => none

/-- applyMetricDisplays writes the non-none metric texts into the panels. -/
def applyMetricDisplays (md : MetricDisplays) (p : Panels) : Panels :=
  { p with metricAvgIv := md.avgIv.getD p.metricAvgIv
           metricHighFear := md.highFear.getD p.metricHighFear
           metricMaxIvr := md.maxIvr.getD p.metricMaxIvr }

def regimeText (u : UniverseRes) (sg : SignalsRes) : String :=
  (jsOrStr u.regime (jsOrStr sg.regime (some "—"))).getD "—"

/-- renderPhase is the tail of the try block (lines 252 to 259): render
the client cards, then the signal rows, then the stress cards, writing
each panel in source order; a TypeError thrown by a renderer jumps to the
catch block with the panels written so far. -/
def renderPhase (p1 : Panels) (sg : SignalsRes) (pf : PortfoliosRes) (st : StressRes) : Panels :=
  match mapExcept renderClientCard (pf.portfolios.getD []) with
  | .error e => catchPanels e p1
  | .ok cards =>
    let p2 := { p1 with clientGrid := PanelContent.cards cards }
    match mapExcept renderSignalRow (sg.signals.getD []) with
    | .error e => catchPanels e p2
    | .ok rows =>
      let p3 := { p2 with signalsBody := PanelContent.signalRows rows }
      { p3 with stressGrid := PanelContent.stressCards ((st.scenarios.getD []).map renderStressCard) }

/-- successPanels is the whole try-block rendering once all four fetches
have succeeded (lines 218 to 259): regime text, metric displays, then the
three grids. -/
def successPanels (prior : Panels) (u : UniverseRes) (sg : SignalsRes)
    (pf : PortfoliosRes) (st : StressRes) : Panels :=
  let regime := regimeText u sg
  let p1 := applyMetricDisplays (metricDisplays (sg.signals.getD []))
    { loadingPanels prior with regime := regime, metricRegime := regime }
  renderPhase p1 sg pf st

/-- loadDashboard models one refresh cycle (app.js lines 195 to 268).  It
first writes the loading placeholders, issues the four reads with the
current token, and threads the fetchAPI side effects of every settled
response through the state (Promise.all starts all four and a 401 clears
the token whichever way the others settle).  On success the panels become
successPanels; on failure the catch block runs on the loading placeholders.
The result also lists the requests issued: the catch path issues none. -/
def loadDashboard (s : AppState) (prior : Panels)
    (ru : Except String (ℕ × UniverseRes)) (rs : Except String (ℕ × SignalsRes))
    (rp : Except String (ℕ × PortfoliosRes)) (rst : Except String (ℕ × StressRes)) :
    AppState × Panels × List Request :=
  let calls := dashboardPaths.map (buildRequest s.storage)
  let p0 : Panels := loadingPanels prior
  let (s1, eu) := fetchAPI s ru
  let (s2, es) := fetchAPI s1 rs
  let (s3, ep) := fetchAPI s2 rp
  let (s4, est) := fetchAPI s3 rst
  match eu, es, ep, est with
  | .ok u, .ok sg, .ok pf, .ok st => (s4, successPanels prior u sg pf st, calls)
  | _, _, _, _ =>
    match firstErr eu es ep est with
    | some e => (s4, catchPanels e p0, calls)
    | none => (s4, p0, calls)

/-! ## Helper lemmas -/

theorem statusOfClass_good : statusOfClass "client-card--good" = .GOOD := rfl

theorem statusOfClass_risk : statusOfClass "client-card--risk" = .RISK := rfl

theorem statusOfClass_blank : statusOfClass "" = .NEUTRAL := rfl

theorem statusClass_pos (c t : ℚ) (m : Bool) (ht : 0 < t) :
    statusClass (some c) (some t) m =
      (if c / t ≤ 1.1 ∧ m = false then "client-card--good"
       else if 1.3 ≤ c / t ∨ m = true then "client-card--risk" else "") := by
  simp only [statusClass, if_pos ht]

theorem statusClass_nonpos (c t : ℚ) (m : Bool) (ht : ¬ 0 < t) :
    statusClass (some c) (some t) m = "" := by
  simp only [statusClass, if_neg ht]

theorem statusOfClass_statusClass (c t : ℚ) (m : Bool) (ht : 0 < t) :
    statusOfClass (statusClass (some c) (some t) m) =
      (if c / t ≤ 1.1 ∧ m = false then RiskStatus.GOOD
       else if 1.3 ≤ c / t ∨ m = true then RiskStatus.RISK else RiskStatus.NEUTRAL) := by
  rw [statusClass_pos c t m ht]
  by_cases h1 : c / t ≤ 1.1 ∧ m = false
  · rw [if_pos h1, if_pos h1, statusOfClass_good]
  · rw [if_neg h1, if_neg h1]
    by_cases h2 : 1.3 ≤ c / t ∨ m = true
    · rw [if_pos h2, if_pos h2, statusOfClass_risk]
    · rw [if_neg h2, if_neg h2, statusOfClass_blank]

/-! ## C10 -/

/-- C10: session token storage round-trips through its single well-known
key: getToken after setToken t returns t, getToken after clearToken is
absent, a second setToken overwrites the first, clearToken undoes setToken,
and neither touches any other key, so at most one credential is stored. -/
theorem c10_token_roundtrip (st : Storage) (t t2 : String) :
    getToken (setToken st t) = some t
    ∧ getToken (clearToken st) = none
    ∧ setToken (setToken st t) t2 = setToken st t2
    ∧ clearToken (setToken st t) = clearToken st
    ∧ (∀ k, k ≠ TOKEN_KEY →
        (setToken st t).getItem k = st.getItem k
        ∧ (clearToken st).getItem k = st.getItem k) := by
  refine ⟨?_, ?_, ?_, ?_, ?_⟩
  · simp [getToken, setToken, Storage.getItem, Storage.setItem]
  · simp [getToken, clearToken, Storage.getItem, Storage.removeItem]
  · funext k
    by_cases h : k = TOKEN_KEY <;> simp [setToken, Storage.setItem, h]
  · funext k
    by_cases h : k = TOKEN_KEY <;> simp [setToken, clearToken, Storage.setItem, Storage.removeItem, h]
  · intro k hk
    constructor <;> simp [setToken, clearToken, Storage.setItem, Storage.removeItem, Storage.getItem, hk]

/-- Witness for C10 at a concrete empty storage, token and foreign key. -/
theorem c10_token_roundtrip_witness :
    getToken (setToken (fun _ => none) "tokA") = some "tokA"
    ∧ (setToken (fun _ => none) "tokA").getItem "other"
        = (fun _ => (none : Option String)) "other" :=
  ⟨(c10_token_roundtrip (fun _ => none) "tokA" "tokB").1,
   ((c10_token_roundtrip (fun _ => none) "tokA" "tokB").2.2.2.2 "other" (by decide)).1⟩

/-! ## C1 -/

/-- C1: risk status classification is a pure function of currentVol,
targetVol and the misalignment flag that matches the three-branch rule: a
missing or non-numeric volatility, or a non-positive target, gives
NEUTRAL; with the ratio defined, GOOD holds exactly when the ratio is at
most 1.1 and the portfolio is aligned, RISK exactly when the ratio is at
least 1.3 or the portfolio is misaligned (so misalignment is sufficient
for RISK and a misaligned portfolio is never GOOD), and a ratio strictly
between 1.1 and 1.3 with an aligned portfolio gives NEUTRAL. -/
theorem c1_risk_status_classification (cv tv : Option ℚ) (m : Bool) :
    statusOfClass (statusClass cv tv m) = specStatus cv tv m
    ∧ statusClass none tv m = ""
    ∧ statusClass cv none m = ""
    ∧ (∀ c t : ℚ, t ≤ 0 → statusClass (some c) (some t) m = "")
    ∧ (∀ c t : ℚ, 0 < t →
        (statusOfClass (statusClass (some c) (some t) m) = .GOOD ↔ c / t ≤ 1.1 ∧ m = false)
        ∧ (statusOfClass (statusClass (some c) (some t) m) = .RISK ↔ 1.3 ≤ c / t ∨ m = true)
        ∧ (m = true → statusOfClass (statusClass (some c) (some t) m) = .RISK)
        ∧ (1.1 < c / t → c / t < 1.3 → m = false →
            statusOfClass (statusClass (some c) (some t) m) = .NEUTRAL))
    ∧ (m = true → statusOfClass (statusClass cv tv m) ≠ .GOOD) := by
  have core : ∀ c t : ℚ, 0 < t →
      statusOfClass (statusClass (some c) (some t) m) =
        (if c / t ≤ 1.1 ∧ m = false then RiskStatus.GOOD
         else if 1.3 ≤ c / t ∨ m = true then RiskStatus.RISK else RiskStatus.NEUTRAL) :=
    fun c t ht => statusOfClass_statusClass c t m ht
  refine ⟨?_, ?_, ?_, ?_, ?_, ?_⟩
  · cases cv with
    | none => cases tv <;> rfl
    | some c =>
      cases tv with
      | none => rfl
      | some t =>
        by_cases ht : 0 < t
        · rw [core c t ht]
          simp only [specStatus, if_neg (not_le.mpr ht)]
        · rw [statusClass_nonpos c t m ht, statusOfClass_blank]
          simp only [specStatus, if_pos (not_lt.mp ht)]
  · cases tv <;> rfl
  · cases cv <;> rfl
  · intro c t ht
    exact statusClass_nonpos c t m (not_lt.mpr ht)
  · intro c t ht
    rw [core c t ht]
    by_cases h1 : c / t ≤ 1.1 ∧ m = false
    · have h2 : ¬ (1.3 ≤ c / t ∨ m = true) := by
        rcases h1 with ⟨hr, hm⟩
        rintro (hge | hmt)
        · have : (1.3 : ℚ) ≤ 1.1 := le_trans hge hr
          norm_num at this
        · rw [hm] at hmt
          exact Bool.false_ne_true hmt
      rw [if_pos h1]
      refine ⟨by simp [h1], by simp [h2], ?_, ?_⟩
      · intro hm
        rw [hm] at h1
        exact absurd h1.2 (by simp)
      · intro hlt _ _
        exact absurd h1.1 (not_le.mpr hlt)
    · rw [if_neg h1]
      by_cases h2 : 1.3 ≤ c / t ∨ m = true
      · rw [if_pos h2]
        refine ⟨by simp [h1], by simp [h2], fun _ => rfl, ?_⟩
        intro _ hlt hm
        rcases h2 with hge | hmt
        · exact absurd hge (not_le.mpr hlt)
        · rw [hm] at hmt
          exact absurd hmt (by simp)
      · rw [if_neg h2]
        refine ⟨by simp [h1], by simp [h2], ?_, fun _ _ _ => rfl⟩
        intro hm
        exact absurd (Or.inr hm) h2
  · intro hm
    cases cv with
    | none => cases tv <;> simp [statusClass, statusOfClass]
    | some c =>
      cases tv with
      | none => simp [statusClass, statusOfClass]
      | some t =>
        by_cases ht : 0 < t
        · rw [core c t ht]
          have h1 : ¬ (c / t ≤ 1.1 ∧ m = false) := by
            rintro ⟨_, hf⟩
            rw [hm] at hf
            exact Bool.noConfusion hf
          rw [if_neg h1, if_pos (Or.inr hm)]
          simp
        · rw [statusClass_nonpos c t m ht, statusOfClass_blank]
          simp

/-- Witness for C1 at current volatility 0.2, target 0.1, misaligned
portfolio: the theorem yields RISK. -/
theorem c1_risk_status_classification_witness :
    statusOfClass (statusClass (some 0.2) (some 0.1) true) = .RISK :=
  ((c1_risk_status_classification (some 0.2) (some 0.1) true).2.2.2.2.1
    0.2 0.1 (by norm_num)).2.2.1 rfl

/-! ## Drift ranking lemmas for C4 and C5 -/

theorem driftAbsGE_eq_true_iff (a b : String × ℚ) : driftAbsGE a b = true ↔ |b.2| ≤ |a.2| := by
  simp [driftAbsGE]

theorem driftAbsGE_trans (a b c : String × ℚ) :
    driftAbsGE a b → driftAbsGE b c → driftAbsGE a c := by
  simp only [driftAbsGE_eq_true_iff]
  exact fun h1 h2 => le_trans h2 h1

theorem driftAbsGE_total (a b : String × ℚ) : driftAbsGE a b || driftAbsGE b a := by
  simp only [Bool.or_eq_true, driftAbsGE_eq_true_iff]
  exact le_total _ _

theorem driftEntries_pairwise (d : List (String × ℚ)) :
    (driftEntries d).Pairwise (fun a b => driftAbsGE a b = true) :=
  List.Pairwise.sublist (List.take_sublist _ _)
    (List.sorted_mergeSort driftAbsGE_trans driftAbsGE_total (driftFilter d))

theorem driftEntries_length (d : List (String × ℚ)) :
    (driftEntries d).length = min 3 (driftFilter d).length := by
  simp [driftEntries, List.length_take, List.length_mergeSort]

theorem mem_driftEntries {d : List (String × ℚ)} {p : String × ℚ} (h : p ∈ driftEntries d) :
    p ∈ d ∧ 0.01 < |p.2| := by
  have h1 : p ∈ (driftFilter d).mergeSort driftAbsGE := List.mem_of_mem_take h
  have h2 : p ∈ driftFilter d := List.mem_mergeSort.mp h1
  have h3 := List.mem_filter.mp h2
  exact ⟨h3.1, by simpa using h3.2⟩

theorem driftEntries_eq_nil_iff (d : List (String × ℚ)) :
    driftEntries d = [] ↔ driftFilter d = [] := by
  constructor
  · intro h
    have := driftEntries_length d
    rw [h] at this
    rcases Nat.min_eq_zero_iff.mp this.symm with h3 | h0
    · omega
    · exact List.eq_nil_of_length_eq_zero h0
  · intro h
    simp [driftEntries, h]

theorem driftEntries_idem (d : List (String × ℚ)) :
    driftEntries (driftEntries d) = driftEntries d := by
  have hfil : driftFilter (driftEntries d) = driftEntries d :=
    List.filter_eq_self.mpr (fun p hp => by
      have := (mem_driftEntries hp).2
      simpa using this)
  have hsorted : ((driftEntries d).mergeSort driftAbsGE) = driftEntries d :=
    List.mergeSort_of_sorted (driftEntries_pairwise d)
  have hlen : (driftEntries d).length ≤ 3 := by
    rw [driftEntries_length]
    exact Nat.min_le_left _ _
  show ((driftFilter (driftEntries d)).mergeSort driftAbsGE).take 3 = driftEntries d
  rw [hfil, hsorted, List.take_of_length_le hlen]

/-! ## C4 -/

/-- C4: the drift summary keeps exactly entries from the mapping with
absolute value above 0.01, in descending absolute-value order, at most the
top 3; each is formatted as a signed percentage with one decimal place,
and an empty surviving set renders the explicit em-dash placeholder, never
the empty string. -/
theorem c4_drift_summary (d : List (String × ℚ)) :
    (∀ p ∈ driftEntries d, p ∈ d ∧ 0.01 < |p.2|)
    ∧ (driftEntries d).Pairwise (fun a b => |b.2| ≤ |a.2|)
    ∧ (driftEntries d).length = min 3 (driftFilter d).length
    ∧ (driftFilter d = [] → driftStr d = "—" ∧ driftStr d ≠ "")
    ∧ (driftFilter d ≠ [] →
        driftStr d = String.intercalate ", " ((driftEntries d).map fmtDrift)
        ∧ (∀ p ∈ driftEntries d,
            fmtDrift p = p.1 ++ " " ++ (if 0 < p.2 then "+" else "")
              ++ jsToFixed 1 (p.2 * 100) ++ "%")) := by
  refine ⟨fun p hp => mem_driftEntries hp, ?_, driftEntries_length d, ?_, ?_⟩
  · exact (driftEntries_pairwise d).imp (fun h => (driftAbsGE_eq_true_iff _ _).mp h)
  · intro h
    have he : driftEntries d = [] := (driftEntries_eq_nil_iff d).mpr h
    constructor
    · simp [driftStr, he]
    · simp [driftStr, he]
  · intro h
    have he : driftEntries d ≠ [] := fun hc => h ((driftEntries_eq_nil_iff d).mp hc)
    exact ⟨by simp [driftStr, he], fun p _ => rfl⟩

/-- Witness for C4 at a mapping with one surviving entry and one filtered
entry. -/
theorem c4_drift_summary_witness :
    driftFilter [("AAPL", (1 : ℚ) / 20), ("MSFT", (1 : ℚ) / 200)] ≠ []
    ∧ driftStr [("AAPL", (1 : ℚ) / 20), ("MSFT", (1 : ℚ) / 200)]
        = String.intercalate ", "
            ((driftEntries [("AAPL", (1 : ℚ) / 20), ("MSFT", (1 : ℚ) / 200)]).map fmtDrift) := by
  have hne : driftFilter [("AAPL", (1 : ℚ) / 20), ("MSFT", (1 : ℚ) / 200)] ≠ [] := by
    norm_num [driftFilter, List.filter_cons, abs_of_pos]
  exact ⟨hne, ((c4_drift_summary [("AAPL", (1 : ℚ) / 20), ("MSFT", (1 : ℚ) / 200)]).2.2.2.2 hne).1⟩

/-! ## C5 -/

/-- C5: drift ranking returns at most 3 entries, never one with absolute
drift at most 0.01, ranking its own output changes nothing, and on a
mapping whose surviving entries are already in descending absolute-value
order the ranking is just those entries truncated to 3, in their given
order. -/
theorem c5_drift_ranking_algebra (d : List (String × ℚ)) :
    (driftEntries d).length ≤ 3
    ∧ (∀ p ∈ driftEntries d, ¬ (|p.2| ≤ 0.01))
    ∧ driftEntries (driftEntries d) = driftEntries d
    ∧ ((driftFilter d).Pairwise (fun a b => driftAbsGE a b = true) →
        driftEntries d = (driftFilter d).take 3) := by
  refine ⟨?_, ?_, driftEntries_idem d, ?_⟩
  · rw [driftEntries_length]
    exact Nat.min_le_left _ _
  · intro p hp
    exact not_le.mpr (mem_driftEntries hp).2
  · intro hs
    show ((driftFilter d).mergeSort driftAbsGE).take 3 = (driftFilter d).take 3
    rw [List.mergeSort_of_sorted hs]

/-- Witness for C5 at a mapping whose surviving entries are already sorted
descending by absolute value. -/
theorem c5_drift_ranking_algebra_witness :
    (driftFilter [("A", (1 : ℚ) / 2), ("B", -(3 : ℚ) / 10), ("C", (1 : ℚ) / 200)]).Pairwise
        (fun a b => driftAbsGE a b = true)
    ∧ driftEntries [("A", (1 : ℚ) / 2), ("B", -(3 : ℚ) / 10), ("C", (1 : ℚ) / 200)]
        = (driftFilter [("A", (1 : ℚ) / 2), ("B", -(3 : ℚ) / 10), ("C", (1 : ℚ) / 200)]).take 3 := by
  have hs : (driftFilter [("A", (1 : ℚ) / 2), ("B", -(3 : ℚ) / 10), ("C", (1 : ℚ) / 200)]).Pairwise
      (fun a b => driftAbsGE a b = true) := by
    norm_num [driftFilter, List.filter_cons, List.pairwise_cons, driftAbsGE, abs_of_pos, abs_of_neg]
  exact ⟨hs, (c5_drift_ranking_algebra
    [("A", (1 : ℚ) / 2), ("B", -(3 : ℚ) / 10), ("C", (1 : ℚ) / 200)]).2.2.2 hs⟩

/-! ## Aggregate metric lemmas for C2 and C3 -/

theorem foldl_ivOrZero (signals : List Signal) (init : ℚ) :
    signals.foldl (fun sum x => sum + ivOrZero x) init
      = init + (signals.filterMap Signal.iv).sum := by
  induction signals generalizing init with
  | nil => simp
  | cons s l ih =>
    rw [List.foldl_cons, ih]
    cases h : s.iv with
    | none => simp [List.filterMap_cons, h, ivOrZero]
    | some q =>
      simp only [List.filterMap_cons, h, ivOrZero, List.sum_cons]
      ring

theorem ivCount_eq : ∀ signals : List Signal,
    ivCount signals = (signals.filterMap Signal.iv).length
  | [] => rfl
  | s :: l => by
    cases h : s.iv with
    | none => simp [ivCount, List.filter_cons, List.filterMap_cons, h, ← ivCount_eq l]
    | some q => simp [ivCount, List.filter_cons, List.filterMap_cons, h, ← ivCount_eq l]

/-- sigOfIv builds a signal carrying only an implied volatility, with a
calm fear level and no rank; used as concrete test data. -/
def sigOfIv (iv : Option ℚ) : Signal :=
  { symbol := "", iv := iv, predicted_hv := none, ivr := none, iv_percentile := none,
    regime := "", fear_level := "NONE", recommended_action := "" }

/-! ## C3 -/

/-- C3: whenever at least one signal has a numeric implied volatility, the
mean-IV metric is the arithmetic mean over exactly the numeric entries:
non-numeric entries are excluded from both the sum and the count, and the
display shows that mean formatted as a percentage. -/
theorem c3_mean_iv (signals : List Signal) (h : signals.filterMap Signal.iv ≠ []) :
    avgIvVal signals = some (specMeanIv signals)
    ∧ (metricDisplays signals).avgIv
        = some (jsToFixed 1 (specMeanIv signals * 100) ++ "%") := by
  have hlen : (signals.filterMap Signal.iv).length ≠ 0 :=
    fun h0 => h (List.eq_nil_of_length_eq_zero h0)
  have hcount : ivCount signals ≠ 0 := by rw [ivCount_eq]; exact hlen
  have hval : avgIvVal signals = some (specMeanIv signals) := by
    unfold avgIvVal specMeanIv
    rw [if_neg hcount, foldl_ivOrZero, zero_add, ivCount_eq]
  have hsig : signals.length ≠ 0 := by
    intro h0
    rw [List.eq_nil_of_length_eq_zero h0] at h
    exact h rfl
  refine ⟨hval, ?_⟩
  unfold metricDisplays
  rw [if_pos hsig, hval]
  rfl

/-- Witness for C3 at the collection with implied volatilities 0.2, 0.3 and
one non-numeric entry: the mean is 0.25. -/
theorem c3_mean_iv_witness :
    avgIvVal [sigOfIv (some 0.2), sigOfIv (some 0.3), sigOfIv none]
      = some (specMeanIv [sigOfIv (some 0.2), sigOfIv (some 0.3), sigOfIv none])
    ∧ specMeanIv [sigOfIv (some 0.2), sigOfIv (some 0.3), sigOfIv none] = 1 / 4 := by
  refine ⟨(c3_mean_iv _ (by simp [sigOfIv])).1, ?_⟩
  norm_num [specMeanIv, sigOfIv, List.filterMap_cons]

/-! ## C2 -/

/-- C2 as stated is false: for the non-empty collection with one signal
that has no numeric implied volatility, no finite rank and a calm fear
level, the fear-count metric is reported as the computed number 0, and
the other two metric texts are simply not written (left stale), so not
every metric shows the explicit unavailable marker. -/
theorem c2_unavailable_counterexample :
    (metricDisplays [sigOfIv none]).highFear = some "0"
    ∧ (metricDisplays [sigOfIv none]).avgIv = none
    ∧ (metricDisplays [sigOfIv none]).maxIvr = none
    ∧ metricDisplays [sigOfIv none]
        ≠ { avgIv := some "—", highFear := some "—", maxIvr := some "—" } := by
  refine ⟨rfl, rfl, rfl, ?_⟩
  intro h
  have h2 := congrArg MetricDisplays.highFear h
  have h3 : (some "0" : Option String) = some "—" := h2
  exact absurd h3 (by decide)

/-- C2 amended: only the empty collection yields the explicit unavailable
marker for all three metrics; for a non-empty collection the fear count is
always reported as the computed count (0 included), and the mean-IV and
max-IVR texts are skipped (no NaN or infinity is ever written, but no
unavailable marker either) when no entry has a finite value. -/
theorem c2_unavailable_amended (signals : List Signal) :
    metricDisplays [] = { avgIv := some "—", highFear := some "—", maxIvr := some "—" }
    ∧ (signals.filterMap Signal.iv = [] → (metricDisplays signals).avgIv ≠ some "NaN"
        ∧ (signals ≠ [] → (metricDisplays signals).avgIv = none))
    ∧ (signals ≠ [] →
        (signals.filterMap Signal.ivr = [] → (metricDisplays signals).maxIvr = none)
        ∧ (metricDisplays signals).highFear = some (toString (highFearCount signals))) := by
  refine ⟨rfl, ?_, ?_⟩
  · intro hiv
    have hc : ivCount signals = 0 := by rw [ivCount_eq, hiv]; rfl
    have havg : (avgIvVal signals) = none := by
      unfold avgIvVal
      rw [if_pos hc]
    by_cases hne : signals = []
    · subst hne
      exact ⟨by simp [metricDisplays], fun hc2 => absurd rfl hc2⟩
    · have hlen : signals.length ≠ 0 :=
        fun h0 => hne (List.eq_nil_of_length_eq_zero h0)
      constructor
      · unfold metricDisplays
        rw [if_pos hlen, havg]
        simp
      · intro _
        unfold metricDisplays
        rw [if_pos hlen, havg]
        rfl
  · intro hne
    have hlen : signals.length ≠ 0 :=
      fun h0 => hne (List.eq_nil_of_length_eq_zero h0)
    constructor
    · intro hivr
      have : maxIvrVal signals = none := by
        unfold maxIvrVal
        rw [hivr]
        rfl
      unfold metricDisplays
      rw [if_pos hlen, this]
      rfl
    · unfold metricDisplays
      rw [if_pos hlen]

/-- Witness for C2 amended at the one-signal collection with no numeric
fields. -/
theorem c2_unavailable_amended_witness :
    (metricDisplays [sigOfIv none]).avgIv = none
    ∧ (metricDisplays [sigOfIv none]).maxIvr = none
    ∧ (metricDisplays [sigOfIv none]).highFear
        = some (toString (highFearCount [sigOfIv none])) := by
  have h := c2_unavailable_amended [sigOfIv none]
  have h2 := h.2.2 (by simp)
  exact ⟨(h.2.1 (by simp [sigOfIv])).2 (by simp), h2.1 (by simp [sigOfIv]), h2.2⟩

/-! ## Error taxonomy lemmas and concrete fixtures for C6, C7, C8, C9 -/

theorem apiErrorMsg_ne_sessionExpired (n : ℕ) : apiErrorMsg n ≠ sessionExpiredMsg := by
  intro h
  have h2 : (apiErrorMsg n).data.head? = sessionExpiredMsg.data.head? := by rw [h]
  have h3 : (some 'A' : Option Char) = some 'S' := h2
  exact absurd h3 (by decide)

def st0 : Storage := fun k => if k = TOKEN_KEY then some "tok" else none

def s0 : AppState := { storage := st0, screen := .app }

def prior0 : Panels :=
  { regime := "r0", clientGrid := .cards [], signalsBody := .signalRows [],
    stressGrid := .stressCards [], metricRegime := "m0", metricAvgIv := "a0",
    metricHighFear := "h0", metricMaxIvr := "x0" }

def uOk : UniverseRes := { regime := some "CALM" }

def sgOk : SignalsRes := { regime := none, signals := some [] }

def pfOk : PortfoliosRes := { portfolios := some [] }

def stOk : StressRes := { scenarios := some [] }

/-! ## C6 -/

/-- C6: a 401 response makes fetchAPI clear the stored token, switch the
UI to the login screen and fail with the session-expired error, which is
distinct from every API-error message; a dashboard refresh hit by a 401
ends logged out with the token gone, its catch branch leaves the loading
placeholders rather than treating the failure as a generic error, and the
only requests of the operation are the four issued up front with the
token that was present at the start, so no call without a token follows
the 401. -/
theorem c6_session_expiry_contract (α : Type) (s : AppState) (b : α) (n : ℕ) :
    getToken (fetchAPI s (Except.ok (401, b))).1.storage = none
    ∧ (fetchAPI s (Except.ok (401, b))).1.screen = .login
    ∧ (fetchAPI s (Except.ok (401, b))).2 = Except.error sessionExpiredMsg
    ∧ sessionExpiredMsg ≠ apiErrorMsg n
    ∧ (∀ (prior : Panels) (u : UniverseRes) (sg : SignalsRes) (pf : PortfoliosRes)
        (bst : StressRes),
        getToken (loadDashboard s prior (.ok (200, u)) (.ok (200, sg)) (.ok (200, pf))
          (.ok (401, bst))).1.storage = none
        ∧ (loadDashboard s prior (.ok (200, u)) (.ok (200, sg)) (.ok (200, pf))
            (.ok (401, bst))).1.screen = .login
        ∧ (loadDashboard s prior (.ok (200, u)) (.ok (200, sg)) (.ok (200, pf))
            (.ok (401, bst))).2.1 = loadingPanels prior
        ∧ (loadDashboard s prior (.ok (200, u)) (.ok (200, sg)) (.ok (200, pf))
            (.ok (401, bst))).2.2 = dashboardPaths.map (buildRequest s.storage)
        ∧ (∀ req ∈ (loadDashboard s prior (.ok (200, u)) (.ok (200, sg)) (.ok (200, pf))
            (.ok (401, bst))).2.2,
            req.authHeader = (getToken s.storage).map (fun t => "Bearer " ++ t))) := by
  refine ⟨rfl, rfl, rfl, fun h => apiErrorMsg_ne_sessionExpired n h.symm, ?_⟩
  intro prior u sg pf bst
  refine ⟨rfl, rfl, rfl, rfl, ?_⟩
  intro req hreq
  have hcalls : (loadDashboard s prior (.ok (200, u)) (.ok (200, sg)) (.ok (200, pf))
      (.ok (401, bst))).2.2 = dashboardPaths.map (buildRequest s.storage) := rfl
  rw [hcalls] at hreq
  simp only [List.mem_map] at hreq
  obtain ⟨path, _, rfl⟩ := hreq
  rfl

/-- Witness for C6 at a concrete state with a stored token and empty
response bodies. -/
theorem c6_session_expiry_contract_witness :
    getToken (fetchAPI s0 (Except.ok (401, stOk))).1.storage = none
    ∧ (loadDashboard s0 prior0 (.ok (200, uOk)) (.ok (200, sgOk)) (.ok (200, pfOk))
        (.ok (401, stOk))).2.1 = loadingPanels prior0 := by
  refine ⟨(c6_session_expiry_contract StressRes s0 stOk 500).1, ?_⟩
  exact ((c6_session_expiry_contract StressRes s0 stOk 500).2.2.2.2
    prior0 uOk sgOk pfOk stOk).2.2.1

/-! ## C7 -/

/-- C7 as stated is false: a 500 on one dashboard call is not surfaced as
inline error text distinct from the transport-failure panel message; the
catch block handles the two identically, rendering the same panel-level
backend-unreachable message in both cases. -/
theorem c7_error_taxonomy_counterexample :
    (loadDashboard s0 prior0 (.ok (500, uOk)) (.ok (200, sgOk)) (.ok (200, pfOk))
        (.ok (200, stOk))).2.1
      = (loadDashboard s0 prior0 (.error "Failed to fetch") (.ok (200, sgOk)) (.ok (200, pfOk))
          (.ok (200, stOk))).2.1
    ∧ (loadDashboard s0 prior0 (.ok (500, uOk)) (.ok (200, sgOk)) (.ok (200, pfOk))
        (.ok (200, stOk))).2.1.clientGrid = PanelContent.unreachableError := by
  exact ⟨rfl, rfl⟩

/-- C7 amended: fetchAPI normalizes a non-2xx non-401 status into the
error message API error with the status, passes a transport failure
through unchanged, and both are distinguishable from the session-expired
error; but the dashboard caller distinguishes only session expiry and
surfaces every other failure kind identically as the panel-level
backend-unreachable message. -/
theorem c7_error_taxonomy_amended (α : Type) (s : AppState) (b : α) (n : ℕ) (m : String)
    (p : Panels) :
    (¬ n = 401 → ¬ (200 ≤ n ∧ n ≤ 299) →
      fetchAPI s (Except.ok (n, b)) = (s, Except.error (apiErrorMsg n)))
    ∧ fetchAPI s (Except.error m : Except String (ℕ × α)) = (s, Except.error m)
    ∧ apiErrorMsg n ≠ sessionExpiredMsg
    ∧ (¬ m = sessionExpiredMsg →
        catchPanels m p = errorPanels p
        ∧ catchPanels m p = catchPanels (apiErrorMsg n) p)
    ∧ catchPanels sessionExpiredMsg p = p := by
  refine ⟨?_, rfl, apiErrorMsg_ne_sessionExpired n, ?_, ?_⟩
  · intro h1 h2
    simp only [fetchAPI]
    rw [if_neg h1, if_pos h2]
  · intro hm
    constructor
    · unfold catchPanels
      rw [if_neg hm]
    · unfold catchPanels
      rw [if_neg hm, if_neg (apiErrorMsg_ne_sessionExpired n)]
  · unfold catchPanels
    rw [if_pos rfl]

/-- Witness for C7 amended at status 500 and a concrete transport
message. -/
theorem c7_error_taxonomy_amended_witness :
    fetchAPI s0 (Except.ok (500, uOk)) = (s0, Except.error (apiErrorMsg 500))
    ∧ catchPanels "Failed to fetch" prior0 = catchPanels (apiErrorMsg 500) prior0 := by
  have h := c7_error_taxonomy_amended UniverseRes s0 uOk 500 "Failed to fetch" prior0
  exact ⟨h.1 (by decide) (by decide), (h.2.2.2.1 (by decide)).2⟩

/-! ## C8 -/

/-- C8 as stated is false: when one of the four reads fails with a
non-SessionExpired error, the previously rendered dashboard state is not
left unchanged; the loading placeholders written at the start of the
cycle are replaced by the catch-block error content, so the client grid
no longer shows its prior cards. -/
theorem c8_all_or_nothing_counterexample :
    (loadDashboard s0 prior0 (.ok (200, uOk)) (.ok (200, sgOk)) (.ok (503, pfOk))
        (.ok (200, stOk))).2.1 ≠ prior0
    ∧ (loadDashboard s0 prior0 (.ok (200, uOk)) (.ok (200, sgOk)) (.ok (503, pfOk))
        (.ok (200, stOk))).2.1.clientGrid ≠ prior0.clientGrid := by
  constructor
  · intro h
    have h2 := congrArg Panels.clientGrid h
    have h3 : PanelContent.unreachableError = PanelContent.cards [] := h2
    exact PanelContent.noConfusion h3
  · intro h
    have h3 : PanelContent.unreachableError = PanelContent.cards [] := h
    exact PanelContent.noConfusion h3

theorem renderPhase_ok (p1 : Panels) (sg : SignalsRes) (pf : PortfoliosRes) (st : StressRes)
    (cards : List CardView) (rows : List SignalRowView)
    (hc : mapExcept renderClientCard (pf.portfolios.getD []) = .ok cards)
    (hr : mapExcept renderSignalRow (sg.signals.getD []) = .ok rows) :
    renderPhase p1 sg pf st =
      { p1 with clientGrid := .cards cards, signalsBody := .signalRows rows,
                stressGrid := .stressCards ((st.scenarios.getD []).map renderStressCard) } := by
  unfold renderPhase
  rw [hc, hr]

/-- C8 amended: the refresh issues the four reads together and is
all-or-nothing only in the sense that no partial derived content of the
four collections is rendered: on success every panel is updated from the
fresh data in one pass, while a non-SessionExpired failure replaces the
panels (already overwritten by the loading placeholders) with the
catch-block error content instead of leaving the prior rendered state;
the metric texts alone keep their prior values, and a SessionExpired
failure leaves the placeholders and logs the session out. -/
theorem c8_all_or_nothing_amended (s : AppState) (prior : Panels) (m : String)
    (u : UniverseRes) (sg : SignalsRes) (pf : PortfoliosRes) (st : StressRes) :
    (¬ m = sessionExpiredMsg →
      (loadDashboard s prior (.error m) (.ok (200, sg)) (.ok (200, pf))
          (.ok (200, st))).2.1 = errorPanels (loadingPanels prior))
    ∧ ((loadDashboard s prior (.ok (401, u)) (.ok (200, sg)) (.ok (200, pf))
          (.ok (200, st))).2.1 = loadingPanels prior
       ∧ (loadDashboard s prior (.ok (401, u)) (.ok (200, sg)) (.ok (200, pf))
           (.ok (200, st))).1.screen = .login)
    ∧ (loadDashboard s prior (.ok (200, u)) (.ok (200, sg)) (.ok (200, pf))
        (.ok (200, st))).2.1 = successPanels prior u sg pf st
    ∧ (∀ (cards : List CardView) (rows : List SignalRowView),
        mapExcept renderClientCard (pf.portfolios.getD []) = .ok cards →
        mapExcept renderSignalRow (sg.signals.getD []) = .ok rows →
        (loadDashboard s prior (.ok (200, u)) (.ok (200, sg)) (.ok (200, pf))
            (.ok (200, st))).2.1.clientGrid = .cards cards
        ∧ (loadDashboard s prior (.ok (200, u)) (.ok (200, sg)) (.ok (200, pf))
            (.ok (200, st))).2.1.signalsBody = .signalRows rows
        ∧ (loadDashboard s prior (.ok (200, u)) (.ok (200, sg)) (.ok (200, pf))
            (.ok (200, st))).2.1.stressGrid
          = .stressCards ((st.scenarios.getD []).map renderStressCard)) := by
  refine ⟨?_, ⟨rfl, rfl⟩, rfl, ?_⟩
  · intro hm
    show catchPanels m (loadingPanels prior) = _
    unfold catchPanels
    rw [if_neg hm]
  · intro cards rows hc hr
    have hsucc : (loadDashboard s prior (.ok (200, u)) (.ok (200, sg)) (.ok (200, pf))
        (.ok (200, st))).2.1 = successPanels prior u sg pf st := rfl
    have hsp := renderPhase_ok
      (applyMetricDisplays (metricDisplays (sg.signals.getD []))
        { loadingPanels prior with regime := regimeText u sg, metricRegime := regimeText u sg })
      sg pf st cards rows hc hr
    have h2 : successPanels prior u sg pf st =
        { applyMetricDisplays (metricDisplays (sg.signals.getD []))
            { loadingPanels prior with regime := regimeText u sg, metricRegime := regimeText u sg }
          with clientGrid := .cards cards, signalsBody := .signalRows rows,
               stressGrid := .stressCards ((st.scenarios.getD []).map renderStressCard) } := by
      unfold successPanels
      exact hsp
    rw [hsucc, h2]
    exact ⟨rfl, rfl, rfl⟩

/-- Witness for C8 amended at a concrete prior state, a transport failure
and empty collections. -/
theorem c8_all_or_nothing_amended_witness :
    (loadDashboard s0 prior0 (.error "Failed to fetch") (.ok (200, sgOk)) (.ok (200, pfOk))
        (.ok (200, stOk))).2.1 = errorPanels (loadingPanels prior0)
    ∧ (loadDashboard s0 prior0 (.ok (200, uOk)) (.ok (200, sgOk)) (.ok (200, pfOk))
        (.ok (200, stOk))).2.1.clientGrid = PanelContent.cards [] := by
  have h := c8_all_or_nothing_amended s0 prior0 "Failed to fetch" uOk sgOk pfOk stOk
  exact ⟨h.1 (by decide), (h.2.2.2 [] [] rfl rfl).1⟩

/-! ## C9 -/

def cl0 : Client :=
  { client_id := "c1", name := "N", risk_label := "MODERATE", target_annual_vol := none }

/-- pNoDrift is a fetched portfolio whose drift mapping is absent. -/
def pNoDrift : Portfolio :=
  { client := some cl0, iv_adjusted_optimal := some { sharpe := some 1 },
    current_annual_vol := some 0.1, misaligned_with_profile := false,
    has_recent_update := false, last_updated := none, drift_from_optimal := none }

/-- C9 as stated is false: client-card derivation does raise on malformed
input; for a portfolio with no drift mapping, Object.entries throws a
TypeError instead of degrading to an unavailable marker. -/
theorem c9_never_raises_counterexample :
    (renderClientCard pNoDrift).isOk = false
    ∧ renderClientCard pNoDrift = Except.error "TypeError: Object.entries of undefined" := by
  exact ⟨rfl, rfl⟩

/-- C9 amended: card derivation tolerates non-numeric volatility and
metric values, producing a card (with NEUTRAL status and NaN renderings)
whenever the client object, the drift mapping and a numeric sharpe are
present; but it raises an access failure when the client object, the
drift mapping or the optimized-portfolio metrics are absent. -/
theorem c9_graceful_amended (p : Portfolio) (c : Client) (d : List (String × ℚ))
    (iv : IvMetrics) (q : ℚ) :
    (p.client = some c → p.drift_from_optimal = some d → p.iv_adjusted_optimal = some iv →
      iv.sharpe = some q → (renderClientCard p).isOk = true)
    ∧ (p.client = some c → p.drift_from_optimal = none → (renderClientCard p).isOk = false)
    ∧ (p.client = none → (renderClientCard p).isOk = false)
    ∧ (p.client = some c → p.drift_from_optimal = some d →
        p.iv_adjusted_optimal = none → (renderClientCard p).isOk = false) := by
  refine ⟨?_, ?_, ?_, ?_⟩
  · intro h1 h2 h3 h4
    simp only [renderClientCard, h1, h2, h3, h4]
    rfl
  · intro h1 h2
    simp only [renderClientCard, h1, h2]
    rfl
  · intro h1
    simp only [renderClientCard, h1]
    rfl
  · intro h1 h2 h3
    simp only [renderClientCard, h1, h2, h3]
    rfl

/-- pNoNums is a portfolio whose numeric volatility fields are all
non-numeric but whose objects are present. -/
def pNoNums : Portfolio :=
  { client := some cl0, iv_adjusted_optimal := some { sharpe := some 1 },
    current_annual_vol := none, misaligned_with_profile := false,
    has_recent_update := false, last_updated := none, drift_from_optimal := some [] }

/-- Witness for C9 amended: the all-objects-present portfolio with
non-numeric volatilities renders a card, and the missing-drift portfolio
fails. -/
theorem c9_graceful_amended_witness :
    (renderClientCard pNoNums).isOk = true
    ∧ (renderClientCard pNoDrift).isOk = false := by
  have h1 := (c9_graceful_amended pNoNums cl0 [] { sharpe := some 1 } 1).1 rfl rfl rfl rfl
  have h2 := (c9_graceful_amended pNoDrift cl0 [] { sharpe := some 1 } 1).2.1 rfl rfl
  exact ⟨h1, h2⟩

end AdvisorIQ
